import Mathlib

/-!
Verification of the dynamic BAC estimator (`bac_app.py`).

The computational core of the program is embedded shallowly over `ℚ`:
the two pure functions (`calculate_bac_value`, `get_bac_status`), the
drink-list operations (`add_drink_callback`, `remove_drink_callback`,
`update_drink`), and the session/monitoring state with its UI event
handlers (`startMonitoringClick`, `stopMonitoringClick`).
Python list indexing semantics (negative indices, `pop` raising
`IndexError`) are modelled explicitly in `pyPop`.
-/

namespace BacApp

/-- Widmark r value for "Male" (source constant `MALE_R = 0.73`). -/
def MALE_R : ℚ := 73 / 100

/-- Widmark r value for "Female" (source constant `FEMALE_R = 0.66`). -/
def FEMALE_R : ℚ := 66 / 100

/-- Source constant `WIDMARK_FACTOR = 5.14`. -/
def WIDMARK_FACTOR : ℚ := 514 / 100

/-- Source constant `METABOLISM_RATE_PER_HOUR = 0.015`. -/
def METABOLISM_RATE_PER_HOUR : ℚ := 15 / 1000

/-- Embedding of `calculate_bac_value` from `bac_app.py` (lines 13-24):
if `total_alcohol_oz <= 0` return `0.0`, otherwise compute the peak BAC,
subtract metabolism over time, and clamp at `0.0`. -/
def calculate_bac_value (total_alcohol_oz weight_lbs r_value food_factor
    current_elapsed_hours : ℚ) : ℚ :=
  if total_alcohol_oz ≤ 0 then 0
  else
    let peak_bac := total_alcohol_oz * WIDMARK_FACTOR / (weight_lbs * r_value) * food_factor
    let current_bac := peak_bac - METABOLISM_RATE_PER_HOUR * current_elapsed_hours
    max 0 current_bac

/-- Embedding of `get_bac_status` from `bac_app.py` (lines 26-35):
returns the (message, color, icon) triple for a BAC level, thresholds
evaluated highest-first. -/
def get_bac_status (bac : ℚ) : String × String × String :=
  if bac ≥ 8 / 100 then ("Legal Limit Exceeded - DO NOT DRIVE!", "danger", "🚨")
  else if bac ≥ 5 / 100 then ("Impaired - Avoid risky activities!", "warning", "⚠️")
  else if bac > 0 then ("Some effects present - Drink responsibly.", "info", "✅")
  else ("Sober - Enjoy responsibly!", "success", "🧘")

/-- A drink entry: the dict `{"volume": float, "abv": float}` of the source. -/
structure Drink where
  volume : ℚ
  abv : ℚ
deriving Repr, DecidableEq

/-- Embedding of line 142:
`sum(drink["volume"] * (drink["abv"] / 100) for drink in drinks)`. -/
def totalAlcohol (drinks : List Drink) : ℚ :=
  (drinks.map (fun d => d.volume * (d.abv / 100))).sum

/-- Embedding of `add_drink_callback` (line 100-101): appends a zeroed drink. -/
def add_drink_callback (drinks : List Drink) : List Drink :=
  drinks ++ [⟨0, 0⟩]

/-- Python `list.pop(i)`: a negative index is first shifted by the length;
if the shifted index is out of range the call raises `IndexError`
(modelled as `none`), otherwise the element at that position is removed. -/
def pyPop (xs : List Drink) (i : Int) : Option (List Drink) :=
  let n : Int := xs.length
  let j : Int := if i < 0 then i + n else i
  if 0 ≤ j ∧ j < n then some (xs.eraseIdx j.toNat) else none

/-- Embedding of `remove_drink_callback` (lines 103-105):
`if index < len(drinks): drinks.pop(index)`.  The guard only rejects
indices at or beyond the length; negative indices reach `pop`. -/
def remove_drink_callback (xs : List Drink) (i : Int) : Option (List Drink) :=
  if i < (xs.length : Int) then pyPop xs i else some xs

/-- In-place drink edit (lines 115-131): writes volume and abv at index `i`. -/
def update_drink (xs : List Drink) (i : Nat) (v a : ℚ) : List Drink :=
  xs.set i ⟨v, a⟩

/-- The mutable session state of the app (lines 38-47), timestamps as `ℚ`. -/
structure SessionState where
  drinks : List Drink
  start_monitoring : Bool
  monitoring_start_time : Option ℚ
  first_drink_offset_hours : ℚ
  last_calculated_bac_time : Option ℚ
deriving Repr, DecidableEq

/-- The session-state initialization of lines 38-47. -/
def initState : SessionState :=
  { drinks := []
    start_monitoring := false
    monitoring_start_time := none
    first_drink_offset_hours := 0
    last_calculated_bac_time := none }

/-- The "Start Monitoring" button handler (lines 151-155).  The button is
disabled when `total_alcohol_oz == 0` or monitoring is already active, so
the handler body runs only when the guard passes. -/
def startMonitoringClick (s : SessionState) (now : ℚ) : SessionState :=
  if totalAlcohol s.drinks = 0 ∨ s.start_monitoring = true then s
  else
    { s with start_monitoring := true
             monitoring_start_time := some now
             last_calculated_bac_time := some now }

/-- The "Stop Monitoring" button handler (lines 157-161).  The button is
disabled when monitoring is not active. -/
def stopMonitoringClick (s : SessionState) : SessionState :=
  if s.start_monitoring = true then
    { s with start_monitoring := false
             monitoring_start_time := none
             last_calculated_bac_time := none }
  else s

/-- UI actions that mutate the session state. -/
inductive Op where
  | addDrink : Op
  | removeDrink : Int → Op
  | updateDrink : Nat → ℚ → ℚ → Op
  | setOffset : ℚ → Op
  | startClick : ℚ → Op
  | stopClick : Op
deriving Repr, DecidableEq

/-- One UI action applied to the session state.  A `removeDrink` whose `pop`
raises `IndexError` leaves the list unchanged (`pop` raises before mutating). -/
def step (s : SessionState) (op : Op) : SessionState :=
  match op with
  | .addDrink => { s with drinks := add_drink_callback s.drinks }
  | .removeDrink i => { s with drinks := (remove_drink_callback s.drinks i).getD s.drinks }
  | .updateDrink i v a => { s with drinks := update_drink s.drinks i v a }
  | .setOffset h => { s with first_drink_offset_hours := h }
  | .startClick now => startMonitoringClick s now
  | .stopClick => stopMonitoringClick s

/-- Monitoring-state invariant: `start_time` is non-null iff `active`. -/
def MonitorInv (s : SessionState) : Prop :=
  s.monitoring_start_time.isSome = s.start_monitoring

/-- Embedding of lines 175-176: total elapsed hours is the initial offset
plus the wall-clock delta since monitoring started, in hours. -/
def elapsedHours (offset start now : ℚ) : ℚ :=
  offset + (now - start) / 3600

/-- C1: for weight_lbs > 0 and r_value > 0, `calculate_bac_value` returns
exactly 0 when total_alcohol_oz ≤ 0 regardless of the other arguments, and
otherwise returns
max(0, total_alcohol_oz * 5.14 / (weight_lbs * r_value) * food_factor
  - 0.015 * elapsed_hours). -/
theorem calculate_bac_spec (a w r f h : ℚ) (hw : 0 < w) (hr : 0 < r) :
    (a ≤ 0 → calculate_bac_value a w r f h = 0) ∧
    (0 < a → calculate_bac_value a w r f h =
      max 0 (a * (514 / 100) / (w * r) * f - (15 / 1000) * h)) := by
  constructor
  · intro ha
    simp [calculate_bac_value, ha]
  · intro ha
    rw [calculate_bac_value, if_neg (not_le.mpr ha)]
    rfl

/-- Witness for C1 at a = 2, w = 150, r = 0.66, f = 0.8, h = 1. -/
theorem calculate_bac_spec_witness :
    calculate_bac_value 2 150 (66 / 100) (8 / 10) 1 =
      max 0 (2 * (514 / 100) / (150 * (66 / 100)) * (8 / 10) - (15 / 1000) * 1) :=
  (calculate_bac_spec 2 150 (66 / 100) (8 / 10) 1 (by norm_num) (by norm_num)).2
    (by norm_num)

/-- C2: for bac ≥ 0, the four threshold intervals cover [0, ∞), boundary
values go to the higher-severity bucket, and `get_bac_status` returns the
corresponding (message, severity, icon) triple on each interval. -/
theorem get_bac_status_partition (bac : ℚ) (hb : 0 ≤ bac) :
    (8 / 100 ≤ bac ∨ (5 / 100 ≤ bac ∧ bac < 8 / 100) ∨
      (0 < bac ∧ bac < 5 / 100) ∨ bac = 0) ∧
    (8 / 100 ≤ bac →
      get_bac_status bac = ("Legal Limit Exceeded - DO NOT DRIVE!", "danger", "🚨")) ∧
    (5 / 100 ≤ bac → bac < 8 / 100 →
      get_bac_status bac = ("Impaired - Avoid risky activities!", "warning", "⚠️")) ∧
    (0 < bac → bac < 5 / 100 →
      get_bac_status bac = ("Some effects present - Drink responsibly.", "info", "✅")) ∧
    (bac = 0 → get_bac_status bac = ("Sober - Enjoy responsibly!", "success", "🧘")) := by
  refine ⟨?_, ?_, ?_, ?_, ?_⟩
  · rcases le_or_lt (8 / 100) bac with h8 | h8
    · exact Or.inl h8
    · rcases le_or_lt (5 / 100) bac with h5 | h5
      · exact Or.inr (Or.inl ⟨h5, h8⟩)
      · rcases eq_or_lt_of_le hb with h0 | h0
        · exact Or.inr (Or.inr (Or.inr h0.symm))
        · exact Or.inr (Or.inr (Or.inl ⟨h0, h5⟩))
  · intro h1
    simp only [get_bac_status]
    split_ifs with g1 g2 g3 <;> first | rfl | linarith
  · intro h5 h8
    simp only [get_bac_status]
    split_ifs with g1 g2 g3 <;> first | rfl | linarith
  · intro h0 h5
    simp only [get_bac_status]
    split_ifs with g1 g2 g3 <;> first | rfl | linarith
  · intro h0
    subst h0
    simp only [get_bac_status]
    split_ifs with g1 g2 g3 <;> first | rfl | linarith

/-- Witness for C2 at bac = 0.06, which falls in the warning interval. -/
theorem get_bac_status_partition_witness :
    get_bac_status (6 / 100) = ("Impaired - Avoid risky activities!", "warning", "⚠️") :=
  (get_bac_status_partition (6 / 100) (by norm_num)).2.2.1 (by norm_num) (by norm_num)

/-- C9: at total_alcohol_oz = 1, weight 160, r = 0.73, food factor 1 and
3 elapsed hours the pre-clamp value is negative, the result is exactly 0,
and the status is the sober/success triple. -/
theorem concrete_scenario_clamped :
    calculate_bac_value 1 160 (73 / 100) 1 3 = 0 ∧
    get_bac_status (calculate_bac_value 1 160 (73 / 100) 1 3) =
      ("Sober - Enjoy responsibly!", "success", "🧘") := by
  norm_num [calculate_bac_value, get_bac_status, WIDMARK_FACTOR,
    METABOLISM_RATE_PER_HOUR]

/-- C4: for fixed alcohol, weight, r and food factor, `calculate_bac_value`
is monotonically non-increasing in elapsed hours, and its value is never
negative. -/
theorem calculate_bac_monotone_elapsed (a w r f h1 h2 : ℚ) (hh : h1 ≤ h2) :
    calculate_bac_value a w r f h2 ≤ calculate_bac_value a w r f h1 ∧
    0 ≤ calculate_bac_value a w r f h1 := by
  constructor
  · unfold calculate_bac_value
    split_ifs with ha
    · exact le_refl 0
    · refine max_le_max (le_refl 0) ?_
      have hm : METABOLISM_RATE_PER_HOUR * h1 ≤ METABOLISM_RATE_PER_HOUR * h2 := by
        unfold METABOLISM_RATE_PER_HOUR
        nlinarith
      linarith
  · unfold calculate_bac_value
    split_ifs with ha
    · exact le_refl 0
    · exact le_max_left 0 _

/-- Witness for C4 at a = 1, w = 160, r = 0.73, f = 1, h1 = 1, h2 = 2. -/
theorem calculate_bac_monotone_elapsed_witness :
    calculate_bac_value 1 160 (73 / 100) 1 2 ≤ calculate_bac_value 1 160 (73 / 100) 1 1 ∧
    0 ≤ calculate_bac_value 1 160 (73 / 100) 1 1 :=
  calculate_bac_monotone_elapsed 1 160 (73 / 100) 1 1 2 (by norm_num)

/-- C5: holding the other inputs fixed (with positive alcohol, weight, r and
nonnegative food factor), `calculate_bac_value` is monotonically increasing
in total alcohol and monotonically decreasing in weight. -/
theorem calculate_bac_monotone_alcohol_weight (a1 a2 a w w1 w2 r f h : ℚ)
    (ha1 : 0 < a1) (ha12 : a1 ≤ a2) (hw : 0 < w) (hr : 0 < r) (hf : 0 ≤ f)
    (hw1 : 0 < w1) (hw12 : w1 ≤ w2) (ha : 0 < a) :
    calculate_bac_value a1 w r f h ≤ calculate_bac_value a2 w r f h ∧
    calculate_bac_value a w2 r f h ≤ calculate_bac_value a w1 r f h := by
  constructor
  · unfold calculate_bac_value
    rw [if_neg (not_le.mpr ha1), if_neg (not_le.mpr (lt_of_lt_of_le ha1 ha12))]
    refine max_le_max (le_refl 0) ?_
    have key : a1 * WIDMARK_FACTOR / (w * r) * f ≤ a2 * WIDMARK_FACTOR / (w * r) * f := by
      unfold WIDMARK_FACTOR
      gcongr
    linarith
  · unfold calculate_bac_value
    rw [if_neg (not_le.mpr ha), if_neg (not_le.mpr ha)]
    refine max_le_max (le_refl 0) ?_
    have key : a * WIDMARK_FACTOR / (w2 * r) * f ≤ a * WIDMARK_FACTOR / (w1 * r) * f := by
      unfold WIDMARK_FACTOR
      gcongr
    linarith

/-- Witness for C5 at a1 = 1, a2 = 2, a = 1, w = 160, w1 = 150, w2 = 160,
r = 0.73, f = 1, h = 0. -/
theorem calculate_bac_monotone_alcohol_weight_witness :
    calculate_bac_value 1 160 (73 / 100) 1 0 ≤ calculate_bac_value 2 160 (73 / 100) 1 0 ∧
    calculate_bac_value 1 160 (73 / 100) 1 0 ≤ calculate_bac_value 1 150 (73 / 100) 1 0 :=
  calculate_bac_monotone_alcohol_weight 1 2 1 160 150 160 (73 / 100) 1 0
    (by norm_num) (by norm_num) (by norm_num) (by norm_num) (by norm_num)
    (by norm_num) (by norm_num) (by norm_num)

/-- C3 counterexample: on the one-element list the call with index -1 is not
a no-op — it removes the element — so the claim that every index outside
[0, length) is silently ignored is false. -/
theorem remove_drink_neg_noop_cex :
    remove_drink_callback [⟨12, 5⟩] (-1) = some [] ∧
    remove_drink_callback [⟨12, 5⟩] (-1) ≠ some [⟨12, 5⟩] := by
  refine ⟨rfl, fun h => ?_⟩
  have h2 : ([] : List Drink) = [⟨12, 5⟩] :=
    Option.some.inj ((rfl : remove_drink_callback [⟨12, 5⟩] (-1) = some []).symm.trans h)
  exact List.cons_ne_nil _ _ h2.symm

/-- C3 amended: removal at index i removes the element when 0 ≤ i < length;
it is a silent no-op only when i ≥ length; a negative i with
-length ≤ i ≤ -1 removes the element at position length + i; and i < -length
raises IndexError (modelled as `none`). -/
theorem remove_drink_cases (l : List Drink) (i : Int) :
    (0 ≤ i → i < l.length → remove_drink_callback l i = some (l.eraseIdx i.toNat)) ∧
    ((l.length : Int) ≤ i → remove_drink_callback l i = some l) ∧
    (-(l.length : Int) ≤ i → i < 0 →
      remove_drink_callback l i = some (l.eraseIdx (i + l.length).toNat)) ∧
    (i < -(l.length : Int) → remove_drink_callback l i = none) := by
  refine ⟨?_, ?_, ?_, ?_⟩ <;> intros <;>
    simp only [remove_drink_callback, pyPop] <;>
    split_ifs <;> first | rfl | omega

/-- Witness for the amended C3: index 5 on a 2-element list is a no-op. -/
theorem remove_drink_cases_witness :
    remove_drink_callback [⟨12, 5⟩, ⟨8, 40⟩] 5 = some [⟨12, 5⟩, ⟨8, 40⟩] :=
  (remove_drink_cases [⟨12, 5⟩, ⟨8, 40⟩] 5).2.1 (by norm_num)

/-- C10: on a nonempty list, a negative index i with -length ≤ i ≤ -1 is not
a no-op: it removes the element at position length + i and shrinks the list
by one. -/
theorem remove_drink_negative_index (l : List Drink) (i : Int)
    (h1 : -(l.length : Int) ≤ i) (h2 : i ≤ -1) :
    remove_drink_callback l i = some (l.eraseIdx (i + (l.length : Int)).toNat) ∧
    (l.eraseIdx (i + (l.length : Int)).toNat).length + 1 = l.length := by
  constructor
  · simp only [remove_drink_callback, pyPop]
    split_ifs <;> first | rfl | omega
  · exact List.length_eraseIdx_add_one (by omega)

/-- Witness for C10: index -1 on a 2-element list removes the last drink. -/
theorem remove_drink_negative_index_witness :
    remove_drink_callback [⟨12, 5⟩, ⟨8, 40⟩] (-1) = some [⟨12, 5⟩] := by
  have h := (remove_drink_negative_index [⟨12, 5⟩, ⟨8, 40⟩] (-1)
    (by norm_num) (by norm_num)).1
  exact h.trans rfl

/-- C6: the invariant "start_time is non-null iff active" holds in the
initial session state and is preserved by every UI action: the start handler
sets both fields together and the stop handler clears both together. -/
theorem monitor_invariant (s : SessionState) (op : Op) (hs : MonitorInv s) :
    MonitorInv initState ∧ MonitorInv (step s op) := by
  refine ⟨rfl, ?_⟩
  cases op with
  | addDrink => exact hs
  | removeDrink i => exact hs
  | updateDrink i v a => exact hs
  | setOffset h => exact hs
  | startClick now =>
      simp only [step, startMonitoringClick]
      split_ifs with g
      · exact hs
      · rfl
  | stopClick =>
      simp only [step, stopMonitoringClick]
      split_ifs with g
      · rfl
      · exact hs

/-- Witness for C6 at the initial state and a stop click. -/
theorem monitor_invariant_witness :
    MonitorInv initState ∧ MonitorInv (step initState .stopClick) :=
  monitor_invariant initState .stopClick rfl

/-- C7: stopping and immediately restarting monitoring (with nonzero total
alcohol so the start button is enabled) preserves the first-drink offset and
the drink list, and sets start_time to the new current time, so the
wall-clock contribution at that instant is zero and elapsed hours equal the
offset again. -/
theorem stop_start_roundtrip (s : SessionState) (now : ℚ)
    (ht : totalAlcohol s.drinks ≠ 0) :
    (startMonitoringClick (stopMonitoringClick s) now).first_drink_offset_hours
        = s.first_drink_offset_hours ∧
    (startMonitoringClick (stopMonitoringClick s) now).drinks = s.drinks ∧
    (startMonitoringClick (stopMonitoringClick s) now).monitoring_start_time = some now ∧
    elapsedHours s.first_drink_offset_hours now now = s.first_drink_offset_hours := by
  have hdrinks : (stopMonitoringClick s).drinks = s.drinks := by
    unfold stopMonitoringClick
    split_ifs <;> rfl
  have hactive : (stopMonitoringClick s).start_monitoring = false := by
    unfold stopMonitoringClick
    split_ifs with g
    · rfl
    · simpa using g
  have hoff : (stopMonitoringClick s).first_drink_offset_hours
      = s.first_drink_offset_hours := by
    unfold stopMonitoringClick
    split_ifs <;> rfl
  have hguard : ¬(totalAlcohol (stopMonitoringClick s).drinks = 0 ∨
      (stopMonitoringClick s).start_monitoring = true) := by
    rw [hdrinks, hactive]
    simp [ht]
  unfold startMonitoringClick
  rw [if_neg hguard]
  refine ⟨hoff, hdrinks, rfl, ?_⟩
  unfold elapsedHours
  ring

/-- Witness for C7 at a concrete active session restarted at time 200. -/
theorem stop_start_roundtrip_witness :
    (startMonitoringClick (stopMonitoringClick
        ⟨[⟨12, 5⟩], true, some 100, 2, some 100⟩) 200).monitoring_start_time
      = some 200 :=
  (stop_start_roundtrip ⟨[⟨12, 5⟩], true, some 100, 2, some 100⟩ 200
    (by norm_num [totalAlcohol])).2.2.1

/-- C8: the derived total alcohol is the sum over the drinks of
volume * abv / 100, and it is invariant under any permutation of the
drink list. -/
theorem totalAlcohol_sum_perm (l1 l2 : List Drink) (hp : l1.Perm l2) :
    totalAlcohol l1 = (l1.map (fun d => d.volume * d.abv / 100)).sum ∧
    totalAlcohol l1 = totalAlcohol l2 := by
  constructor
  · simp [totalAlcohol, mul_div_assoc]
  · unfold totalAlcohol
    exact List.Perm.sum_eq (hp.map _)

/-- Witness for C8 on a two-element list and its transposition. -/
theorem totalAlcohol_sum_perm_witness :
    totalAlcohol [⟨12, 5⟩, ⟨5, 40⟩] = totalAlcohol [⟨5, 40⟩, ⟨12, 5⟩] :=
  (totalAlcohol_sum_perm _ _ (List.Perm.swap _ _ _)).2

end BacApp
